import Mathlib

/-!
Shallow embedding of the `langchain-scraperapi` package
(`langchain_scraperapi/utils.py` and `langchain_scraperapi/tools.py`).

Python dictionaries of outbound query parameters are modelled as ordered
association lists; optional arguments are `Option`s; HTTP transport is
modelled by passing the `HttpResponse` the remote service would answer
with, and each request method also returns the list of HTTP GET requests
it issued (its outbound trace).  Exceptions are modelled with
`Except String`, the error string being the Python exception message.
-/

namespace LangchainScraperapi

/-- Constant `SCRAPERAPI_BASE_URL` from `utils.py`. -/
def SCRAPERAPI_BASE_URL : String := "https://api.scraperapi.com/"

/-- Constant `SCRAPERAPI_STRUCTURED_BASE_URL` from `utils.py`. -/
def SCRAPERAPI_STRUCTURED_BASE_URL : String := "https://api.scraperapi.com/structured/"

/-- Values that appear in the Python query-parameter dictionaries: strings,
integers, or (hypothetically) native booleans.  The source only ever stores
strings and integers; `vBool` exists so that "never a native boolean
encoding" is a contentful statement. -/
inductive PyVal where
  | vStr : String → PyVal
  | vInt : Int → PyVal
  | vBool : Bool → PyVal
deriving DecidableEq, Repr

/-- A Python dict of query parameters after all values are present:
an ordered association list. -/
abbrev Params := List (String × PyVal)

/-- A Python dict whose values may be `None` (pre-filtering), as built by the
structured-endpoint methods. -/
abbrev OptParams := List (String × Option PyVal)

/-- An HTTP response from the remote service: status code, body text, reason
phrase, and the request URL echoed back (used in library error messages). -/
structure HttpResponse where
  status : Nat
  body : String
  reason : String
  url : String
deriving DecidableEq, Repr

/-- An outbound HTTP GET request: target URL and query parameters. -/
structure HttpRequest where
  url : String
  params : Params
deriving DecidableEq, Repr

/-- Embedding of `requests.Response.raise_for_status`: raises `HTTPError`
with a "Client Error" message for 4xx and a "Server Error" message for 5xx,
and returns normally for every other status. -/
def requests_raise_for_status (r : HttpResponse) : Except String Unit :=
  if 400 ≤ r.status ∧ r.status ≤ 499 then
    .error (toString r.status ++ " Client Error: " ++ r.reason ++ " for url: " ++ r.url)
  else if 500 ≤ r.status ∧ r.status ≤ 599 then
    .error (toString r.status ++ " Server Error: " ++ r.reason ++ " for url: " ++ r.url)
  else .ok ()

/-- Embedding of `aiohttp.ClientResponse.raise_for_status`: raises
`ClientResponseError` for every status `≥ 400`, returns normally otherwise. -/
def aiohttp_raise_for_status (r : HttpResponse) : Except String Unit :=
  if 400 ≤ r.status then
    .error (toString r.status ++ ", message=" ++ r.reason ++ ", url=" ++ r.url)
  else .ok ()

/-- One `if <opt>: params[key] = <opt>` statement from `scrape` /
`scrape_async`: a Python string is truthy iff it is non-empty, so the entry
is added only for a present, non-empty value. -/
def truthy_str_entry (key : String) (v : Option String) : Params :=
  match v with
  | some s => if s = "" then [] else [(key, PyVal.vStr s)]
  | none => []

/-- One `if <opt> is not None: params[key] = "true" if <opt> else "false"`
statement from `scrape` / `scrape_async`. -/
def bool_entry (key : String) (v : Option Bool) : Params :=
  match v with
  | some b => [(key, PyVal.vStr (if b then "true" else "false"))]
  | none => []

/-- Arguments of `ScraperAPIWrapper.scrape` and `scrape_async`. -/
structure ScrapeArgs where
  url : String
  output_format : Option String := none
  country_code : Option String := none
  device_type : Option String := none
  premium : Option Bool := none
  render : Option Bool := none
  keep_headers : Option Bool := none
deriving DecidableEq, Repr

namespace ScraperAPIWrapper

/-- The `params` dict built by `ScraperAPIWrapper.scrape`
(`utils.py` lines 62-78): `api_key` and `url` always, then each optional
parameter guarded by Python truthiness (strings) or an `is not None` test
(booleans). -/
def scrape_params (apiKey : String) (a : ScrapeArgs) : Params :=
  [("api_key", PyVal.vStr apiKey), ("url", PyVal.vStr a.url)]
  ++ truthy_str_entry "output_format" a.output_format
  ++ truthy_str_entry "country_code" a.country_code
  ++ truthy_str_entry "device_type" a.device_type
  ++ bool_entry "premium" a.premium
  ++ bool_entry "render" a.render
  ++ bool_entry "keep_headers" a.keep_headers

/-- The `params` dict built by `ScraperAPIWrapper.scrape_async`
(`utils.py` lines 108-124); the source duplicates the construction of
`scrape` line for line. -/
def scrape_async_params (apiKey : String) (a : ScrapeArgs) : Params :=
  [("api_key", PyVal.vStr apiKey), ("url", PyVal.vStr a.url)]
  ++ truthy_str_entry "output_format" a.output_format
  ++ truthy_str_entry "country_code" a.country_code
  ++ truthy_str_entry "device_type" a.device_type
  ++ bool_entry "premium" a.premium
  ++ bool_entry "render" a.render
  ++ bool_entry "keep_headers" a.keep_headers

/-- `ScraperAPIWrapper.scrape`: build the params, issue one GET to the base
URL, `raise_for_status`, return `response.text`.  The first component is the
outbound request trace (exactly the GETs issued), the second the returned
text or raised exception. -/
def scrape (apiKey : String) (a : ScrapeArgs) (r : HttpResponse) :
    List HttpRequest × Except String String :=
  let req : HttpRequest := ⟨SCRAPERAPI_BASE_URL, scrape_params apiKey a⟩
  ([req],
    match requests_raise_for_status r with
    | .error e => .error e
    | .ok _ => .ok r.body)

/-- `ScraperAPIWrapper.scrape_async`: build the params, issue one GET, then
`if response.status == 200: return await response.text() else:
response.raise_for_status()`.  When the status is neither 200 nor `≥ 400`
the Python function falls off its end and returns `None`, hence the
`Option String` success type. -/
def scrape_async (apiKey : String) (a : ScrapeArgs) (r : HttpResponse) :
    List HttpRequest × Except String (Option String) :=
  let req : HttpRequest := ⟨SCRAPERAPI_BASE_URL, scrape_async_params apiKey a⟩
  ([req],
    if r.status = 200 then .ok (some r.body)
    else
      match aiohttp_raise_for_status r with
      | .error e => .error e
      | .ok _ => .ok none)

end ScraperAPIWrapper

/-- Python dict merge `{**a, **b}`: keys of `a` in order, each taking `b`'s
value when `b` also has the key, followed by the keys of `b` not in `a`,
in `b`'s order. -/
def dict_merge (a b : OptParams) : OptParams :=
  a.map (fun kv =>
    match List.lookup kv.1 b with
    | some v => (kv.1, v)
    | none => kv)
  ++ b.filter (fun kv => (List.lookup kv.1 a).isNone)

/-- The dict comprehension
`{k: v for k, v in all_params.items() if v is not None}` from
`_make_request` / `_make_request_async`. -/
def filter_not_none (ps : OptParams) : Params :=
  ps.filterMap (fun kv =>
    match kv.2 with
    | some v => some (kv.1, v)
    | none => none)

/-- Arguments of `google_search` / `google_search_async`. -/
structure GoogleSearchArgs where
  query : String
  country_code : Option String := none
  tld : Option String := none
  output_format : Option String := none
  uule : Option String := none
  num : Option Int := none
  hl : Option String := none
  gl : Option String := none
  ie : Option String := none
  oe : Option String := none
  start : Option Int := none
deriving DecidableEq, Repr

/-- Arguments of `amazon_search` / `amazon_search_async`. -/
structure AmazonSearchArgs where
  query : String
  country_code : Option String := none
  tld : Option String := none
  output_format : Option String := none
  page : Option Int := none
deriving DecidableEq, Repr

namespace ScraperAPIStructuredWrapper

/-- Embedding of `ScraperAPIStructuredWrapper._make_request`
(`utils.py` lines 154-164): merge `{"api_key": ...}` with the
endpoint-specific params, drop `None` values, GET
`SCRAPERAPI_STRUCTURED_BASE_URL + endpoint`, `raise_for_status`, return
`response.text`. -/
def make_request (apiKey : String) (endpoint : String) (params : OptParams)
    (r : HttpResponse) : List HttpRequest × Except String String :=
  let base_params : OptParams := [("api_key", some (PyVal.vStr apiKey))]
  let all_params := dict_merge base_params params
  let filtered_params := filter_not_none all_params
  let req : HttpRequest := ⟨SCRAPERAPI_STRUCTURED_BASE_URL ++ endpoint, filtered_params⟩
  ([req],
    match requests_raise_for_status r with
    | .error e => .error e
    | .ok _ => .ok r.body)

/-- Embedding of `ScraperAPIStructuredWrapper._make_request_async`
(`utils.py` lines 166-179): same parameter handling, then
`if response.status == 200: return await response.text() else:
response.raise_for_status()` — falling off the end (returning `None`)
for statuses that are neither 200 nor `≥ 400`. -/
def make_request_async (apiKey : String) (endpoint : String) (params : OptParams)
    (r : HttpResponse) : List HttpRequest × Except String (Option String) :=
  let base_params : OptParams := [("api_key", some (PyVal.vStr apiKey))]
  let all_params := dict_merge base_params params
  let filtered_params := filter_not_none all_params
  let req : HttpRequest := ⟨SCRAPERAPI_STRUCTURED_BASE_URL ++ endpoint, filtered_params⟩
  ([req],
    if r.status = 200 then .ok (some r.body)
    else
      match aiohttp_raise_for_status r with
      | .error e => .error e
      | .ok _ => .ok none)

/-- The `params` dict literal built inside `google_search`
(`utils.py` lines 213-225): every optional argument appears under its own
name, possibly with value `None`. -/
def google_search_params (a : GoogleSearchArgs) : OptParams :=
  [("query", some (PyVal.vStr a.query)),
   ("country_code", a.country_code.map PyVal.vStr),
   ("tld", a.tld.map PyVal.vStr),
   ("output_format", a.output_format.map PyVal.vStr),
   ("uule", a.uule.map PyVal.vStr),
   ("num", a.num.map PyVal.vInt),
   ("hl", a.hl.map PyVal.vStr),
   ("gl", a.gl.map PyVal.vStr),
   ("ie", a.ie.map PyVal.vStr),
   ("oe", a.oe.map PyVal.vStr),
   ("start", a.start.map PyVal.vInt)]

/-- The `params` dict literal built inside `google_search_async`
(`utils.py` lines 260-272); identical to the one in `google_search`. -/
def google_search_async_params (a : GoogleSearchArgs) : OptParams :=
  [("query", some (PyVal.vStr a.query)),
   ("country_code", a.country_code.map PyVal.vStr),
   ("tld", a.tld.map PyVal.vStr),
   ("output_format", a.output_format.map PyVal.vStr),
   ("uule", a.uule.map PyVal.vStr),
   ("num", a.num.map PyVal.vInt),
   ("hl", a.hl.map PyVal.vStr),
   ("gl", a.gl.map PyVal.vStr),
   ("ie", a.ie.map PyVal.vStr),
   ("oe", a.oe.map PyVal.vStr),
   ("start", a.start.map PyVal.vInt)]

/-- The `params` dict literal built inside `amazon_search`
(`utils.py` lines 295-301): the `country_code` argument is stored under
the wire key `"country"`. -/
def amazon_search_params (a : AmazonSearchArgs) : OptParams :=
  [("query", some (PyVal.vStr a.query)),
   ("country", a.country_code.map PyVal.vStr),
   ("tld", a.tld.map PyVal.vStr),
   ("output_format", a.output_format.map PyVal.vStr),
   ("page", a.page.map PyVal.vInt)]

/-- The `params` dict literal built inside `amazon_search_async`
(`utils.py` lines 324-330); identical to the one in `amazon_search`. -/
def amazon_search_async_params (a : AmazonSearchArgs) : OptParams :=
  [("query", some (PyVal.vStr a.query)),
   ("country", a.country_code.map PyVal.vStr),
   ("tld", a.tld.map PyVal.vStr),
   ("output_format", a.output_format.map PyVal.vStr),
   ("page", a.page.map PyVal.vInt)]

/-- `ScraperAPIStructuredWrapper.google_search`. -/
def google_search (apiKey : String) (a : GoogleSearchArgs) (r : HttpResponse) :
    List HttpRequest × Except String String :=
  make_request apiKey "google/search" (google_search_params a) r

/-- `ScraperAPIStructuredWrapper.google_search_async`. -/
def google_search_async (apiKey : String) (a : GoogleSearchArgs) (r : HttpResponse) :
    List HttpRequest × Except String (Option String) :=
  make_request_async apiKey "google/search" (google_search_async_params a) r

/-- `ScraperAPIStructuredWrapper.amazon_search`. -/
def amazon_search (apiKey : String) (a : AmazonSearchArgs) (r : HttpResponse) :
    List HttpRequest × Except String String :=
  make_request apiKey "amazon/search" (amazon_search_params a) r

/-- `ScraperAPIStructuredWrapper.amazon_search_async`. -/
def amazon_search_async (apiKey : String) (a : AmazonSearchArgs) (r : HttpResponse) :
    List HttpRequest × Except String (Option String) :=
  make_request_async apiKey "amazon/search" (amazon_search_async_params a) r

end ScraperAPIStructuredWrapper

/-- Embedding of `langchain_core.utils.get_from_env` (the library function
called by both `validate_environment` validators): return the environment
value when it is set and truthy (non-empty), otherwise raise `ValueError`
with a message naming the key and the environment variable. -/
def get_from_env (key envKey : String) (envVal : Option String) : Except String String :=
  match envVal with
  | some s =>
      if s = "" then
        .error ("Did not find " ++ key ++ ", please add an environment variable `"
          ++ envKey ++ "` which contains it, or pass `" ++ key ++ "` as a named parameter.")
      else .ok s
  | none =>
      .error ("Did not find " ++ key ++ ", please add an environment variable `"
        ++ envKey ++ "` which contains it, or pass `" ++ key ++ "` as a named parameter.")

/-- Embedding of `langchain_core.utils.get_from_dict_or_env`: use the dict
value when the key is present and truthy (non-empty string), otherwise fall
back to `get_from_env`.  `dictVal` is the constructor-argument value
(`none` when the key is absent), `envVal` the environment variable. -/
def get_from_dict_or_env (dictVal envVal : Option String)
    (key envKey : String) : Except String String :=
  match dictVal with
  | some v => if v = "" then get_from_env key envKey envVal else .ok v
  | none => get_from_env key envKey envVal

/-- `ScraperAPIWrapper.validate_environment` (`utils.py` lines 27-36): the
pre-validator resolves `scraperapi_api_key` from the constructor arguments
or the `SCRAPERAPI_API_KEY` environment variable; on success the wrapper is
constructed holding that key, on failure no instance is produced. -/
def ScraperAPIWrapper.validate_environment (dictVal envVal : Option String) :
    Except String String :=
  get_from_dict_or_env dictVal envVal "scraperapi_api_key" "SCRAPERAPI_API_KEY"

/-- `ScraperAPIStructuredWrapper.validate_environment`
(`utils.py` lines 143-152); identical to the generic wrapper's validator. -/
def ScraperAPIStructuredWrapper.validate_environment (dictVal envVal : Option String) :
    Except String String :=
  get_from_dict_or_env dictVal envVal "scraperapi_api_key" "SCRAPERAPI_API_KEY"

/-- `ScraperAPITool._run` (`tools.py` lines 110-134): forward to
`ScraperAPIWrapper.scrape`; `except Exception as e: return f"Error: {str(e)}"`. -/
def ScraperAPITool.run (apiKey : String) (a : ScrapeArgs) (r : HttpResponse) : String :=
  match (ScraperAPIWrapper.scrape apiKey a r).2 with
  | .ok t => t
  | .error e => "Error: " ++ e

/-- `ScraperAPITool._arun` (`tools.py` lines 136-160): forward to
`scrape_async` with the same try/except; since `scrape_async` can return
`None`, so can the facade. -/
def ScraperAPITool.arun (apiKey : String) (a : ScrapeArgs) (r : HttpResponse) : Option String :=
  match (ScraperAPIWrapper.scrape_async apiKey a r).2 with
  | .ok t => t
  | .error e => some ("Error: " ++ e)

/-- `ScraperAPIGoogleSearchTool._run` (`tools.py` lines 250-282). -/
def ScraperAPIGoogleSearchTool.run (apiKey : String) (a : GoogleSearchArgs)
    (r : HttpResponse) : String :=
  match (ScraperAPIStructuredWrapper.google_search apiKey a r).2 with
  | .ok t => t
  | .error e => "Error: " ++ e

/-- `ScraperAPIGoogleSearchTool._arun` (`tools.py` lines 284-316). -/
def ScraperAPIGoogleSearchTool.arun (apiKey : String) (a : GoogleSearchArgs)
    (r : HttpResponse) : Option String :=
  match (ScraperAPIStructuredWrapper.google_search_async apiKey a r).2 with
  | .ok t => t
  | .error e => some ("Error: " ++ e)

/-- `ScraperAPIAmazonSearchTool._run` (`tools.py` lines 390-410). -/
def ScraperAPIAmazonSearchTool.run (apiKey : String) (a : AmazonSearchArgs)
    (r : HttpResponse) : String :=
  match (ScraperAPIStructuredWrapper.amazon_search apiKey a r).2 with
  | .ok t => t
  | .error e => "Error: " ++ e

/-- `ScraperAPIAmazonSearchTool._arun` (`tools.py` lines 412-432). -/
def ScraperAPIAmazonSearchTool.arun (apiKey : String) (a : AmazonSearchArgs)
    (r : HttpResponse) : Option String :=
  match (ScraperAPIStructuredWrapper.amazon_search_async apiKey a r).2 with
  | .ok t => t
  | .error e => some ("Error: " ++ e)

/-- Two successive invocations of `scrape` with identical arguments, each
against its own response: the concatenated outbound trace and the two
results.  Models a call-count experiment on a mocked transport. -/
def ScraperAPIWrapper.scrape_twice (apiKey : String) (a : ScrapeArgs)
    (r₁ r₂ : HttpResponse) :
    List HttpRequest × (Except String String × Except String String) :=
  let c₁ := ScraperAPIWrapper.scrape apiKey a r₁
  let c₂ := ScraperAPIWrapper.scrape apiKey a r₂
  (c₁.1 ++ c₂.1, (c₁.2, c₂.2))

/-- Two successive invocations of `amazon_search` with identical arguments. -/
def ScraperAPIStructuredWrapper.amazon_search_twice (apiKey : String)
    (a : AmazonSearchArgs) (r₁ r₂ : HttpResponse) :
    List HttpRequest × (Except String String × Except String String) :=
  let c₁ := ScraperAPIStructuredWrapper.amazon_search apiKey a r₁
  let c₂ := ScraperAPIStructuredWrapper.amazon_search apiKey a r₂
  (c₁.1 ++ c₂.1, (c₁.2, c₂.2))

/-- The query-parameter mapping of the single GET issued by `google_search`. -/
def ScraperAPIStructuredWrapper.google_outbound (apiKey : String)
    (a : GoogleSearchArgs) : Params :=
  filter_not_none (dict_merge [("api_key", some (PyVal.vStr apiKey))]
    (ScraperAPIStructuredWrapper.google_search_params a))

/-- The query-parameter mapping of the single GET issued by
`google_search_async`. -/
def ScraperAPIStructuredWrapper.google_async_outbound (apiKey : String)
    (a : GoogleSearchArgs) : Params :=
  filter_not_none (dict_merge [("api_key", some (PyVal.vStr apiKey))]
    (ScraperAPIStructuredWrapper.google_search_async_params a))

/-- The query-parameter mapping of the single GET issued by `amazon_search`. -/
def ScraperAPIStructuredWrapper.amazon_outbound (apiKey : String)
    (a : AmazonSearchArgs) : Params :=
  filter_not_none (dict_merge [("api_key", some (PyVal.vStr apiKey))]
    (ScraperAPIStructuredWrapper.amazon_search_params a))

/-- The query-parameter mapping of the single GET issued by
`amazon_search_async`. -/
def ScraperAPIStructuredWrapper.amazon_async_outbound (apiKey : String)
    (a : AmazonSearchArgs) : Params :=
  filter_not_none (dict_merge [("api_key", some (PyVal.vStr apiKey))]
    (ScraperAPIStructuredWrapper.amazon_search_async_params a))

/-- One key of a structured-endpoint dict after `None`-filtering: a
singleton entry when the value is present, nothing when it was `None`. -/
def opt_entry (key : String) : Option PyVal → Params
  | some v => [(key, v)]
  | none => []

/-- The `ValueError` message raised by `get_from_env` when neither a
constructor argument nor the environment variable supplies the key. -/
def missing_api_key_error : String :=
  "Did not find scraperapi_api_key, please add an environment variable `SCRAPERAPI_API_KEY` which contains it, or pass `scraperapi_api_key` as a named parameter."

/-! Helper lemmas about association-list lookup over the parameter chunks. -/

theorem lookup_append (k : String) (xs ys : Params) :
    List.lookup k (xs ++ ys) = ((List.lookup k xs).orElse fun _ => List.lookup k ys) := by
  induction xs with
  | nil => simp [List.lookup]
  | cons x xs ih => cases hx : (k == x.1) <;> simp [List.lookup, hx, ih]

theorem lookup_truthy_str_entry_ne (k key : String) (v : Option String)
    (h : (k == key) = false) :
    List.lookup k (truthy_str_entry key v) = none := by
  cases v with
  | none => rfl
  | some s => by_cases hs : s = "" <;> simp [truthy_str_entry, hs, List.lookup, h]

theorem lookup_bool_entry_ne (k key : String) (v : Option Bool)
    (h : (k == key) = false) :
    List.lookup k (bool_entry key v) = none := by
  cases v <;> simp [bool_entry, List.lookup, h]

theorem bool_entry_none (key : String) : bool_entry key none = [] := rfl

theorem truthy_str_entry_none (key : String) : truthy_str_entry key none = [] := rfl

theorem truthy_str_entry_empty (key : String) : truthy_str_entry key (some "") = [] := rfl

theorem lookup_bool_entry_self (key : String) (b : Bool) :
    List.lookup key (bool_entry key (some b))
      = some (PyVal.vStr (if b then "true" else "false")) := by
  simp [bool_entry, List.lookup]

theorem lookup_truthy_str_entry_self (key s : String) (hs : s ≠ "") :
    List.lookup key (truthy_str_entry key (some s)) = some (PyVal.vStr s) := by
  simp [truthy_str_entry, hs, List.lookup]

theorem lookup_fnn_skip (k key : String) (v : Option PyVal) (rest : OptParams)
    (h : (k == key) = false) :
    List.lookup k (filter_not_none ((key, v) :: rest))
      = List.lookup k (filter_not_none rest) := by
  cases v <;> simp [filter_not_none, List.lookup, h]

theorem lookup_fnn_some (k : String) (x : PyVal) (rest : OptParams) :
    List.lookup k (filter_not_none ((k, some x) :: rest)) = some x := by
  simp [filter_not_none, List.lookup]

theorem lookup_fnn_none_head (k : String) (rest : OptParams) :
    List.lookup k (filter_not_none ((k, none) :: rest))
      = List.lookup k (filter_not_none rest) := rfl

theorem filter_not_none_nil : filter_not_none [] = [] := rfl

theorem opt_entry_none (key : String) : opt_entry key none = [] := rfl

theorem opt_entry_some (key : String) (x : PyVal) : opt_entry key (some x) = [(key, x)] := rfl

theorem fnn_cons_opt (key : String) (o : Option PyVal) (rest : OptParams) :
    filter_not_none ((key, o) :: rest) = opt_entry key o ++ filter_not_none rest := by
  cases o <;> rfl

theorem lookup_opt_entry_ne (k key : String) (v : Option PyVal) (h : (k == key) = false) :
    List.lookup k (opt_entry key v) = none := by
  cases v <;> simp [opt_entry, List.lookup, h]

theorem lookup_opt_entry_self_some (key : String) (x : PyVal) :
    List.lookup key (opt_entry key (some x)) = some x := by
  simp [opt_entry, List.lookup]

theorem google_merge (k : String) (a : GoogleSearchArgs) :
    dict_merge [("api_key", some (PyVal.vStr k))]
        (ScraperAPIStructuredWrapper.google_search_params a)
      = ("api_key", some (PyVal.vStr k))
        :: ScraperAPIStructuredWrapper.google_search_params a := by
  simp [dict_merge, ScraperAPIStructuredWrapper.google_search_params, List.lookup, List.filter]

theorem google_async_merge (k : String) (a : GoogleSearchArgs) :
    dict_merge [("api_key", some (PyVal.vStr k))]
        (ScraperAPIStructuredWrapper.google_search_async_params a)
      = ("api_key", some (PyVal.vStr k))
        :: ScraperAPIStructuredWrapper.google_search_async_params a := by
  simp [dict_merge, ScraperAPIStructuredWrapper.google_search_async_params,
    List.lookup, List.filter]

theorem amazon_merge (k : String) (a : AmazonSearchArgs) :
    dict_merge [("api_key", some (PyVal.vStr k))]
        (ScraperAPIStructuredWrapper.amazon_search_params a)
      = ("api_key", some (PyVal.vStr k))
        :: ScraperAPIStructuredWrapper.amazon_search_params a := by
  simp [dict_merge, ScraperAPIStructuredWrapper.amazon_search_params, List.lookup, List.filter]

theorem amazon_async_merge (k : String) (a : AmazonSearchArgs) :
    dict_merge [("api_key", some (PyVal.vStr k))]
        (ScraperAPIStructuredWrapper.amazon_search_async_params a)
      = ("api_key", some (PyVal.vStr k))
        :: ScraperAPIStructuredWrapper.amazon_search_async_params a := by
  simp [dict_merge, ScraperAPIStructuredWrapper.amazon_search_async_params,
    List.lookup, List.filter]

theorem google_outbound_shape (k : String) (a : GoogleSearchArgs) :
    ScraperAPIStructuredWrapper.google_outbound k a
      = [("api_key", PyVal.vStr k), ("query", PyVal.vStr a.query)]
        ++ opt_entry "country_code" (a.country_code.map PyVal.vStr)
        ++ opt_entry "tld" (a.tld.map PyVal.vStr)
        ++ opt_entry "output_format" (a.output_format.map PyVal.vStr)
        ++ opt_entry "uule" (a.uule.map PyVal.vStr)
        ++ opt_entry "num" (a.num.map PyVal.vInt)
        ++ opt_entry "hl" (a.hl.map PyVal.vStr)
        ++ opt_entry "gl" (a.gl.map PyVal.vStr)
        ++ opt_entry "ie" (a.ie.map PyVal.vStr)
        ++ opt_entry "oe" (a.oe.map PyVal.vStr)
        ++ opt_entry "start" (a.start.map PyVal.vInt) := by
  rw [ScraperAPIStructuredWrapper.google_outbound, google_merge,
    ScraperAPIStructuredWrapper.google_search_params]
  simp [fnn_cons_opt, filter_not_none_nil, opt_entry_some]

theorem google_async_outbound_shape (k : String) (a : GoogleSearchArgs) :
    ScraperAPIStructuredWrapper.google_async_outbound k a
      = [("api_key", PyVal.vStr k), ("query", PyVal.vStr a.query)]
        ++ opt_entry "country_code" (a.country_code.map PyVal.vStr)
        ++ opt_entry "tld" (a.tld.map PyVal.vStr)
        ++ opt_entry "output_format" (a.output_format.map PyVal.vStr)
        ++ opt_entry "uule" (a.uule.map PyVal.vStr)
        ++ opt_entry "num" (a.num.map PyVal.vInt)
        ++ opt_entry "hl" (a.hl.map PyVal.vStr)
        ++ opt_entry "gl" (a.gl.map PyVal.vStr)
        ++ opt_entry "ie" (a.ie.map PyVal.vStr)
        ++ opt_entry "oe" (a.oe.map PyVal.vStr)
        ++ opt_entry "start" (a.start.map PyVal.vInt) := by
  rw [ScraperAPIStructuredWrapper.google_async_outbound, google_async_merge,
    ScraperAPIStructuredWrapper.google_search_async_params]
  simp [fnn_cons_opt, filter_not_none_nil, opt_entry_some]

theorem amazon_outbound_shape (k : String) (a : AmazonSearchArgs) :
    ScraperAPIStructuredWrapper.amazon_outbound k a
      = [("api_key", PyVal.vStr k), ("query", PyVal.vStr a.query)]
        ++ opt_entry "country" (a.country_code.map PyVal.vStr)
        ++ opt_entry "tld" (a.tld.map PyVal.vStr)
        ++ opt_entry "output_format" (a.output_format.map PyVal.vStr)
        ++ opt_entry "page" (a.page.map PyVal.vInt) := by
  rw [ScraperAPIStructuredWrapper.amazon_outbound, amazon_merge,
    ScraperAPIStructuredWrapper.amazon_search_params]
  simp [fnn_cons_opt, filter_not_none_nil, opt_entry_some]

theorem amazon_async_outbound_shape (k : String) (a : AmazonSearchArgs) :
    ScraperAPIStructuredWrapper.amazon_async_outbound k a
      = [("api_key", PyVal.vStr k), ("query", PyVal.vStr a.query)]
        ++ opt_entry "country" (a.country_code.map PyVal.vStr)
        ++ opt_entry "tld" (a.tld.map PyVal.vStr)
        ++ opt_entry "output_format" (a.output_format.map PyVal.vStr)
        ++ opt_entry "page" (a.page.map PyVal.vInt) := by
  rw [ScraperAPIStructuredWrapper.amazon_async_outbound, amazon_async_merge,
    ScraperAPIStructuredWrapper.amazon_search_async_params]
  simp [fnn_cons_opt, filter_not_none_nil, opt_entry_some]

/-! Claim theorems. -/

/-- C2: for every Tool Facade entry point, when the underlying Wrapper method
raises an exception with message `m` the facade returns exactly
`"Error: " ++ m` (it never propagates, being a total function into
`String` / `Option String`), and when the Wrapper method returns a result
the facade returns it unchanged. -/
theorem C2_facade_error_stringification (k : String) (a : ScrapeArgs)
    (g : GoogleSearchArgs) (m : AmazonSearchArgs) (r : HttpResponse) :
    (∀ e, (ScraperAPIWrapper.scrape k a r).2 = .error e →
      ScraperAPITool.run k a r = "Error: " ++ e)
    ∧ (∀ t, (ScraperAPIWrapper.scrape k a r).2 = .ok t →
      ScraperAPITool.run k a r = t)
    ∧ (∀ e, (ScraperAPIWrapper.scrape_async k a r).2 = .error e →
      ScraperAPITool.arun k a r = some ("Error: " ++ e))
    ∧ (∀ t, (ScraperAPIWrapper.scrape_async k a r).2 = .ok t →
      ScraperAPITool.arun k a r = t)
    ∧ (∀ e, (ScraperAPIStructuredWrapper.google_search k g r).2 = .error e →
      ScraperAPIGoogleSearchTool.run k g r = "Error: " ++ e)
    ∧ (∀ t, (ScraperAPIStructuredWrapper.google_search k g r).2 = .ok t →
      ScraperAPIGoogleSearchTool.run k g r = t)
    ∧ (∀ e, (ScraperAPIStructuredWrapper.google_search_async k g r).2 = .error e →
      ScraperAPIGoogleSearchTool.arun k g r = some ("Error: " ++ e))
    ∧ (∀ t, (ScraperAPIStructuredWrapper.google_search_async k g r).2 = .ok t →
      ScraperAPIGoogleSearchTool.arun k g r = t)
    ∧ (∀ e, (ScraperAPIStructuredWrapper.amazon_search k m r).2 = .error e →
      ScraperAPIAmazonSearchTool.run k m r = "Error: " ++ e)
    ∧ (∀ t, (ScraperAPIStructuredWrapper.amazon_search k m r).2 = .ok t →
      ScraperAPIAmazonSearchTool.run k m r = t)
    ∧ (∀ e, (ScraperAPIStructuredWrapper.amazon_search_async k m r).2 = .error e →
      ScraperAPIAmazonSearchTool.arun k m r = some ("Error: " ++ e))
    ∧ (∀ t, (ScraperAPIStructuredWrapper.amazon_search_async k m r).2 = .ok t →
      ScraperAPIAmazonSearchTool.arun k m r = t) := by
  refine ⟨?_, ?_, ?_, ?_, ?_, ?_, ?_, ?_, ?_, ?_, ?_, ?_⟩ <;> intro x h <;>
    simp [ScraperAPITool.run, ScraperAPITool.arun, ScraperAPIGoogleSearchTool.run,
      ScraperAPIGoogleSearchTool.arun, ScraperAPIAmazonSearchTool.run,
      ScraperAPIAmazonSearchTool.arun, h]

/-- C2 witness: at a concrete 404 response the sync facade returns the
stringified `HTTPError`, and at a concrete 200 response it returns the body. -/
theorem C2_facade_error_stringification_witness :
    ScraperAPITool.run "k" ⟨"https://x.org", none, none, none, none, none, none⟩
        ⟨404, "nf-body", "NOT FOUND", "https://api.scraperapi.com/"⟩
      = "Error: " ++ "404 Client Error: NOT FOUND for url: https://api.scraperapi.com/"
    ∧ ScraperAPITool.run "k" ⟨"https://x.org", none, none, none, none, none, none⟩
        ⟨200, "page-body", "OK", "https://api.scraperapi.com/"⟩
      = "page-body" := by
  constructor
  · exact (C2_facade_error_stringification "k"
      ⟨"https://x.org", none, none, none, none, none, none⟩
      ⟨"q", none, none, none, none, none, none, none, none, none, none⟩
      ⟨"q", none, none, none, none⟩
      ⟨404, "nf-body", "NOT FOUND", "https://api.scraperapi.com/"⟩).1
      "404 Client Error: NOT FOUND for url: https://api.scraperapi.com/" rfl
  · exact (C2_facade_error_stringification "k"
      ⟨"https://x.org", none, none, none, none, none, none⟩
      ⟨"q", none, none, none, none, none, none, none, none, none, none⟩
      ⟨"q", none, none, none, none⟩
      ⟨200, "page-body", "OK", "https://api.scraperapi.com/"⟩).2.1
      "page-body" rfl

/-- C3: in `amazon_search` and `amazon_search_async` the `country_code`
argument, when present, appears in the outbound parameters under the key
`"country"`; the key `"country_code"` never appears; when the argument is
absent neither key appears. -/
theorem C3_amazon_country_rename (k : String) (a : AmazonSearchArgs) (r : HttpResponse) :
    (ScraperAPIStructuredWrapper.amazon_search k a r).1
      = [⟨SCRAPERAPI_STRUCTURED_BASE_URL ++ "amazon/search",
          ScraperAPIStructuredWrapper.amazon_outbound k a⟩]
    ∧ (ScraperAPIStructuredWrapper.amazon_search_async k a r).1
      = [⟨SCRAPERAPI_STRUCTURED_BASE_URL ++ "amazon/search",
          ScraperAPIStructuredWrapper.amazon_async_outbound k a⟩]
    ∧ (∀ c, a.country_code = some c →
        List.lookup "country" (ScraperAPIStructuredWrapper.amazon_outbound k a)
          = some (PyVal.vStr c)
        ∧ List.lookup "country" (ScraperAPIStructuredWrapper.amazon_async_outbound k a)
          = some (PyVal.vStr c))
    ∧ (a.country_code = none →
        List.lookup "country" (ScraperAPIStructuredWrapper.amazon_outbound k a) = none
        ∧ List.lookup "country" (ScraperAPIStructuredWrapper.amazon_async_outbound k a) = none)
    ∧ List.lookup "country_code" (ScraperAPIStructuredWrapper.amazon_outbound k a) = none
    ∧ List.lookup "country_code" (ScraperAPIStructuredWrapper.amazon_async_outbound k a) = none := by
  refine ⟨rfl, rfl, ?_, ?_, ?_, ?_⟩
  · intro c h
    refine ⟨?_, ?_⟩
    · rw [amazon_outbound_shape]
      simp [lookup_append, lookup_opt_entry_ne, lookup_opt_entry_self_some, List.lookup, h]
    · rw [amazon_async_outbound_shape]
      simp [lookup_append, lookup_opt_entry_ne, lookup_opt_entry_self_some, List.lookup, h]
  · intro h
    refine ⟨?_, ?_⟩
    · rw [amazon_outbound_shape]
      simp [lookup_append, lookup_opt_entry_ne, opt_entry_none, List.lookup, h,
        -List.lookup_eq_none_iff]
    · rw [amazon_async_outbound_shape]
      simp [lookup_append, lookup_opt_entry_ne, opt_entry_none, List.lookup, h,
        -List.lookup_eq_none_iff]
  · rw [amazon_outbound_shape]
    simp [lookup_append, lookup_opt_entry_ne, List.lookup, -List.lookup_eq_none_iff]
  · rw [amazon_async_outbound_shape]
    simp [lookup_append, lookup_opt_entry_ne, List.lookup, -List.lookup_eq_none_iff]

/-- C3 witness: with `country_code = some "uk"` the outbound mapping binds
`"country"` to `"uk"`, and with it absent neither key occurs. -/
theorem C3_amazon_country_rename_witness :
    List.lookup "country"
        (ScraperAPIStructuredWrapper.amazon_outbound "k" ⟨"shoes", some "uk", none, none, none⟩)
      = some (PyVal.vStr "uk")
    ∧ List.lookup "country"
        (ScraperAPIStructuredWrapper.amazon_outbound "k" ⟨"shoes", none, none, none, none⟩)
      = none := by
  constructor
  · exact ((C3_amazon_country_rename "k" ⟨"shoes", some "uk", none, none, none⟩
      ⟨200, "b", "OK", "u"⟩).2.2.1 "uk" rfl).1
  · exact ((C3_amazon_country_rename "k" ⟨"shoes", none, none, none, none⟩
      ⟨200, "b", "OK", "u"⟩).2.2.2.1 rfl).1

/-- C4: for every request method, an optional parameter left unset (`None`)
contributes no key at all to the outbound parameter mapping — it is not sent
as an empty string or a null marker.  One conjunct per optional parameter,
covering the blocking and non-blocking form together. -/
theorem C4_unset_params_omitted (k : String) (a : ScrapeArgs)
    (g : GoogleSearchArgs) (m : AmazonSearchArgs) :
    (a.output_format = none →
      List.lookup "output_format" (ScraperAPIWrapper.scrape_params k a) = none
      ∧ List.lookup "output_format" (ScraperAPIWrapper.scrape_async_params k a) = none)
    ∧ (a.country_code = none →
      List.lookup "country_code" (ScraperAPIWrapper.scrape_params k a) = none
      ∧ List.lookup "country_code" (ScraperAPIWrapper.scrape_async_params k a) = none)
    ∧ (a.device_type = none →
      List.lookup "device_type" (ScraperAPIWrapper.scrape_params k a) = none
      ∧ List.lookup "device_type" (ScraperAPIWrapper.scrape_async_params k a) = none)
    ∧ (a.premium = none →
      List.lookup "premium" (ScraperAPIWrapper.scrape_params k a) = none
      ∧ List.lookup "premium" (ScraperAPIWrapper.scrape_async_params k a) = none)
    ∧ (a.render = none →
      List.lookup "render" (ScraperAPIWrapper.scrape_params k a) = none
      ∧ List.lookup "render" (ScraperAPIWrapper.scrape_async_params k a) = none)
    ∧ (a.keep_headers = none →
      List.lookup "keep_headers" (ScraperAPIWrapper.scrape_params k a) = none
      ∧ List.lookup "keep_headers" (ScraperAPIWrapper.scrape_async_params k a) = none)
    ∧ (g.country_code = none →
      List.lookup "country_code" (ScraperAPIStructuredWrapper.google_outbound k g) = none
      ∧ List.lookup "country_code" (ScraperAPIStructuredWrapper.google_async_outbound k g) = none)
    ∧ (g.tld = none →
      List.lookup "tld" (ScraperAPIStructuredWrapper.google_outbound k g) = none
      ∧ List.lookup "tld" (ScraperAPIStructuredWrapper.google_async_outbound k g) = none)
    ∧ (g.output_format = none →
      List.lookup "output_format" (ScraperAPIStructuredWrapper.google_outbound k g) = none
      ∧ List.lookup "output_format" (ScraperAPIStructuredWrapper.google_async_outbound k g) = none)
    ∧ (g.uule = none →
      List.lookup "uule" (ScraperAPIStructuredWrapper.google_outbound k g) = none
      ∧ List.lookup "uule" (ScraperAPIStructuredWrapper.google_async_outbound k g) = none)
    ∧ (g.num = none →
      List.lookup "num" (ScraperAPIStructuredWrapper.google_outbound k g) = none
      ∧ List.lookup "num" (ScraperAPIStructuredWrapper.google_async_outbound k g) = none)
    ∧ (g.hl = none →
      List.lookup "hl" (ScraperAPIStructuredWrapper.google_outbound k g) = none
      ∧ List.lookup "hl" (ScraperAPIStructuredWrapper.google_async_outbound k g) = none)
    ∧ (g.gl = none →
      List.lookup "gl" (ScraperAPIStructuredWrapper.google_outbound k g) = none
      ∧ List.lookup "gl" (ScraperAPIStructuredWrapper.google_async_outbound k g) = none)
    ∧ (g.ie = none →
      List.lookup "ie" (ScraperAPIStructuredWrapper.google_outbound k g) = none
      ∧ List.lookup "ie" (ScraperAPIStructuredWrapper.google_async_outbound k g) = none)
    ∧ (g.oe = none →
      List.lookup "oe" (ScraperAPIStructuredWrapper.google_outbound k g) = none
      ∧ List.lookup "oe" (ScraperAPIStructuredWrapper.google_async_outbound k g) = none)
    ∧ (g.start = none →
      List.lookup "start" (ScraperAPIStructuredWrapper.google_outbound k g) = none
      ∧ List.lookup "start" (ScraperAPIStructuredWrapper.google_async_outbound k g) = none)
    ∧ (m.country_code = none →
      List.lookup "country" (ScraperAPIStructuredWrapper.amazon_outbound k m) = none
      ∧ List.lookup "country" (ScraperAPIStructuredWrapper.amazon_async_outbound k m) = none)
    ∧ (m.tld = none →
      List.lookup "tld" (ScraperAPIStructuredWrapper.amazon_outbound k m) = none
      ∧ List.lookup "tld" (ScraperAPIStructuredWrapper.amazon_async_outbound k m) = none)
    ∧ (m.output_format = none →
      List.lookup "output_format" (ScraperAPIStructuredWrapper.amazon_outbound k m) = none
      ∧ List.lookup "output_format" (ScraperAPIStructuredWrapper.amazon_async_outbound k m) = none)
    ∧ (m.page = none →
      List.lookup "page" (ScraperAPIStructuredWrapper.amazon_outbound k m) = none
      ∧ List.lookup "page" (ScraperAPIStructuredWrapper.amazon_async_outbound k m) = none) := by
  refine ⟨?_, ?_, ?_, ?_, ?_, ?_, ?_, ?_, ?_, ?_, ?_, ?_, ?_, ?_, ?_, ?_, ?_, ?_, ?_, ?_⟩ <;>
    intro h <;> refine ⟨?_, ?_⟩ <;>
    first
      | (simp [ScraperAPIWrapper.scrape_params, ScraperAPIWrapper.scrape_async_params,
          lookup_append, lookup_truthy_str_entry_ne, lookup_bool_entry_ne,
          truthy_str_entry_none, bool_entry_none, List.lookup, h,
          -List.lookup_eq_none_iff]; done)
      | (rw [google_outbound_shape];
          simp [lookup_append, lookup_opt_entry_ne, opt_entry_none, List.lookup, h,
            -List.lookup_eq_none_iff]; done)
      | (rw [google_async_outbound_shape];
          simp [lookup_append, lookup_opt_entry_ne, opt_entry_none, List.lookup, h,
            -List.lookup_eq_none_iff]; done)
      | (rw [amazon_outbound_shape];
          simp [lookup_append, lookup_opt_entry_ne, opt_entry_none, List.lookup, h,
            -List.lookup_eq_none_iff]; done)
      | (rw [amazon_async_outbound_shape];
          simp [lookup_append, lookup_opt_entry_ne, opt_entry_none, List.lookup, h,
            -List.lookup_eq_none_iff]; done)

/-- C4 witness: with all optional arguments unset, representative keys are
absent from the outbound mappings. -/
theorem C4_unset_params_omitted_witness :
    List.lookup "output_format"
        (ScraperAPIWrapper.scrape_params "k" ⟨"https://x.org", none, none, none, none, none, none⟩)
      = none
    ∧ List.lookup "tld"
        (ScraperAPIStructuredWrapper.google_outbound "k"
          ⟨"q", none, none, none, none, none, none, none, none, none, none⟩)
      = none
    ∧ List.lookup "page"
        (ScraperAPIStructuredWrapper.amazon_outbound "k" ⟨"q", none, none, none, none⟩)
      = none := by
  refine ⟨?_, ?_, ?_⟩
  · exact ((C4_unset_params_omitted "k" ⟨"https://x.org", none, none, none, none, none, none⟩
      ⟨"q", none, none, none, none, none, none, none, none, none, none⟩
      ⟨"q", none, none, none, none⟩).1 rfl).1
  · exact ((C4_unset_params_omitted "k" ⟨"https://x.org", none, none, none, none, none, none⟩
      ⟨"q", none, none, none, none, none, none, none, none, none, none⟩
      ⟨"q", none, none, none, none⟩).2.2.2.2.2.2.2.1 rfl).1
  · exact ((C4_unset_params_omitted "k" ⟨"https://x.org", none, none, none, none, none, none⟩
      ⟨"q", none, none, none, none, none, none, none, none, none, none⟩
      ⟨"q", none, none, none, none⟩).2.2.2.2.2.2.2.2.2.2.2.2.2.2.2.2.2.2.2 rfl).1

/-- C6: in `scrape` and `scrape_async`, a set boolean optional parameter is
serialized as the literal string `"true"` or `"false"`, and the outbound
mapping never holds a native boolean under those keys. -/
theorem C6_bool_params_serialized_as_strings (k : String) (a : ScrapeArgs) :
    (∀ b, a.premium = some b →
      List.lookup "premium" (ScraperAPIWrapper.scrape_params k a)
        = some (PyVal.vStr (if b then "true" else "false"))
      ∧ List.lookup "premium" (ScraperAPIWrapper.scrape_async_params k a)
        = some (PyVal.vStr (if b then "true" else "false")))
    ∧ (∀ b, a.render = some b →
      List.lookup "render" (ScraperAPIWrapper.scrape_params k a)
        = some (PyVal.vStr (if b then "true" else "false"))
      ∧ List.lookup "render" (ScraperAPIWrapper.scrape_async_params k a)
        = some (PyVal.vStr (if b then "true" else "false")))
    ∧ (∀ b, a.keep_headers = some b →
      List.lookup "keep_headers" (ScraperAPIWrapper.scrape_params k a)
        = some (PyVal.vStr (if b then "true" else "false"))
      ∧ List.lookup "keep_headers" (ScraperAPIWrapper.scrape_async_params k a)
        = some (PyVal.vStr (if b then "true" else "false")))
    ∧ (∀ b, List.lookup "premium" (ScraperAPIWrapper.scrape_params k a)
        ≠ some (PyVal.vBool b))
    ∧ (∀ b, List.lookup "render" (ScraperAPIWrapper.scrape_params k a)
        ≠ some (PyVal.vBool b))
    ∧ (∀ b, List.lookup "keep_headers" (ScraperAPIWrapper.scrape_params k a)
        ≠ some (PyVal.vBool b))
    ∧ (∀ b, List.lookup "premium" (ScraperAPIWrapper.scrape_async_params k a)
        ≠ some (PyVal.vBool b))
    ∧ (∀ b, List.lookup "render" (ScraperAPIWrapper.scrape_async_params k a)
        ≠ some (PyVal.vBool b))
    ∧ (∀ b, List.lookup "keep_headers" (ScraperAPIWrapper.scrape_async_params k a)
        ≠ some (PyVal.vBool b)) := by
  refine ⟨?_, ?_, ?_, ?_, ?_, ?_, ?_, ?_, ?_⟩
  · intro b h
    constructor <;>
      simp [ScraperAPIWrapper.scrape_params, ScraperAPIWrapper.scrape_async_params,
        lookup_append, lookup_truthy_str_entry_ne, lookup_bool_entry_ne,
        lookup_bool_entry_self, List.lookup, h]
  · intro b h
    constructor <;>
      simp [ScraperAPIWrapper.scrape_params, ScraperAPIWrapper.scrape_async_params,
        lookup_append, lookup_truthy_str_entry_ne, lookup_bool_entry_ne,
        lookup_bool_entry_self, List.lookup, h]
  · intro b h
    constructor <;>
      simp [ScraperAPIWrapper.scrape_params, ScraperAPIWrapper.scrape_async_params,
        lookup_append, lookup_truthy_str_entry_ne, lookup_bool_entry_ne,
        lookup_bool_entry_self, List.lookup, h]
  all_goals
    intro b h
  · rcases hp : a.premium with _ | b' <;>
      simp [ScraperAPIWrapper.scrape_params, lookup_append, lookup_truthy_str_entry_ne,
        lookup_bool_entry_ne, bool_entry_none, lookup_bool_entry_self, List.lookup, hp,
        -List.lookup_eq_none_iff] at h
  · rcases hp : a.render with _ | b' <;>
      simp [ScraperAPIWrapper.scrape_params, lookup_append, lookup_truthy_str_entry_ne,
        lookup_bool_entry_ne, bool_entry_none, lookup_bool_entry_self, List.lookup, hp,
        -List.lookup_eq_none_iff] at h
  · rcases hp : a.keep_headers with _ | b' <;>
      simp [ScraperAPIWrapper.scrape_params, lookup_append, lookup_truthy_str_entry_ne,
        lookup_bool_entry_ne, bool_entry_none, lookup_bool_entry_self, List.lookup, hp,
        -List.lookup_eq_none_iff] at h
  · rcases hp : a.premium with _ | b' <;>
      simp [ScraperAPIWrapper.scrape_async_params, lookup_append, lookup_truthy_str_entry_ne,
        lookup_bool_entry_ne, bool_entry_none, lookup_bool_entry_self, List.lookup, hp,
        -List.lookup_eq_none_iff] at h
  · rcases hp : a.render with _ | b' <;>
      simp [ScraperAPIWrapper.scrape_async_params, lookup_append, lookup_truthy_str_entry_ne,
        lookup_bool_entry_ne, bool_entry_none, lookup_bool_entry_self, List.lookup, hp,
        -List.lookup_eq_none_iff] at h
  · rcases hp : a.keep_headers with _ | b' <;>
      simp [ScraperAPIWrapper.scrape_async_params, lookup_append, lookup_truthy_str_entry_ne,
        lookup_bool_entry_ne, bool_entry_none, lookup_bool_entry_self, List.lookup, hp,
        -List.lookup_eq_none_iff] at h

/-- C6 witness: with `premium = True` the serialized value is the string
`"true"`. -/
theorem C6_bool_params_serialized_as_strings_witness :
    List.lookup "premium"
        (ScraperAPIWrapper.scrape_params "k"
          ⟨"https://x.org", none, none, none, some true, none, none⟩)
      = some (PyVal.vStr "true") := by
  exact ((C6_bool_params_serialized_as_strings "k"
    ⟨"https://x.org", none, none, none, some true, none, none⟩).1 true rfl).1

/-- C9: in `scrape`/`scrape_async` an empty-string optional parameter is
omitted exactly as if it were absent (the whole outbound mapping is the same
as for `None`), whereas the structured-search methods include an
empty-string optional parameter under its key. -/
theorem C9_empty_string_asymmetry (k u : String) (of cc dt : Option String)
    (p rd kh : Option Bool) (g : GoogleSearchArgs) (m : AmazonSearchArgs) :
    ScraperAPIWrapper.scrape_params k ⟨u, some "", cc, dt, p, rd, kh⟩
      = ScraperAPIWrapper.scrape_params k ⟨u, none, cc, dt, p, rd, kh⟩
    ∧ ScraperAPIWrapper.scrape_params k ⟨u, of, some "", dt, p, rd, kh⟩
      = ScraperAPIWrapper.scrape_params k ⟨u, of, none, dt, p, rd, kh⟩
    ∧ ScraperAPIWrapper.scrape_params k ⟨u, of, cc, some "", p, rd, kh⟩
      = ScraperAPIWrapper.scrape_params k ⟨u, of, cc, none, p, rd, kh⟩
    ∧ ScraperAPIWrapper.scrape_async_params k ⟨u, some "", cc, dt, p, rd, kh⟩
      = ScraperAPIWrapper.scrape_async_params k ⟨u, none, cc, dt, p, rd, kh⟩
    ∧ ScraperAPIWrapper.scrape_async_params k ⟨u, of, some "", dt, p, rd, kh⟩
      = ScraperAPIWrapper.scrape_async_params k ⟨u, of, none, dt, p, rd, kh⟩
    ∧ ScraperAPIWrapper.scrape_async_params k ⟨u, of, cc, some "", p, rd, kh⟩
      = ScraperAPIWrapper.scrape_async_params k ⟨u, of, cc, none, p, rd, kh⟩
    ∧ List.lookup "country_code"
        (ScraperAPIStructuredWrapper.google_outbound k
          ⟨g.query, some "", g.tld, g.output_format, g.uule, g.num, g.hl, g.gl,
            g.ie, g.oe, g.start⟩)
      = some (PyVal.vStr "")
    ∧ List.lookup "country_code"
        (ScraperAPIStructuredWrapper.google_async_outbound k
          ⟨g.query, some "", g.tld, g.output_format, g.uule, g.num, g.hl, g.gl,
            g.ie, g.oe, g.start⟩)
      = some (PyVal.vStr "")
    ∧ List.lookup "tld"
        (ScraperAPIStructuredWrapper.amazon_outbound k
          ⟨m.query, m.country_code, some "", m.output_format, m.page⟩)
      = some (PyVal.vStr "")
    ∧ List.lookup "tld"
        (ScraperAPIStructuredWrapper.amazon_async_outbound k
          ⟨m.query, m.country_code, some "", m.output_format, m.page⟩)
      = some (PyVal.vStr "") := by
  refine ⟨rfl, rfl, rfl, rfl, rfl, rfl, ?_, ?_, ?_, ?_⟩
  · rw [google_outbound_shape]
    simp [lookup_append, lookup_opt_entry_ne, lookup_opt_entry_self_some, List.lookup]
  · rw [google_async_outbound_shape]
    simp [lookup_append, lookup_opt_entry_ne, lookup_opt_entry_self_some, List.lookup]
  · rw [amazon_outbound_shape]
    simp [lookup_append, lookup_opt_entry_ne, lookup_opt_entry_self_some, List.lookup]
  · rw [amazon_async_outbound_shape]
    simp [lookup_append, lookup_opt_entry_ne, lookup_opt_entry_self_some, List.lookup]

/-- C10: every request method's outbound parameter mapping binds
`"api_key"` to the wrapper's credential value, for every argument
combination; the conjuncts also identify each method's single outbound
request with its mapping. -/
theorem C10_api_key_always_present (k : String) (a : ScrapeArgs)
    (g : GoogleSearchArgs) (m : AmazonSearchArgs) (r : HttpResponse) :
    List.lookup "api_key" (ScraperAPIWrapper.scrape_params k a) = some (PyVal.vStr k)
    ∧ List.lookup "api_key" (ScraperAPIWrapper.scrape_async_params k a) = some (PyVal.vStr k)
    ∧ List.lookup "api_key" (ScraperAPIStructuredWrapper.google_outbound k g)
      = some (PyVal.vStr k)
    ∧ List.lookup "api_key" (ScraperAPIStructuredWrapper.google_async_outbound k g)
      = some (PyVal.vStr k)
    ∧ List.lookup "api_key" (ScraperAPIStructuredWrapper.amazon_outbound k m)
      = some (PyVal.vStr k)
    ∧ List.lookup "api_key" (ScraperAPIStructuredWrapper.amazon_async_outbound k m)
      = some (PyVal.vStr k)
    ∧ (ScraperAPIWrapper.scrape k a r).1
      = [⟨SCRAPERAPI_BASE_URL, ScraperAPIWrapper.scrape_params k a⟩]
    ∧ (ScraperAPIWrapper.scrape_async k a r).1
      = [⟨SCRAPERAPI_BASE_URL, ScraperAPIWrapper.scrape_async_params k a⟩]
    ∧ (ScraperAPIStructuredWrapper.google_search k g r).1
      = [⟨SCRAPERAPI_STRUCTURED_BASE_URL ++ "google/search",
          ScraperAPIStructuredWrapper.google_outbound k g⟩]
    ∧ (ScraperAPIStructuredWrapper.google_search_async k g r).1
      = [⟨SCRAPERAPI_STRUCTURED_BASE_URL ++ "google/search",
          ScraperAPIStructuredWrapper.google_async_outbound k g⟩]
    ∧ (ScraperAPIStructuredWrapper.amazon_search k m r).1
      = [⟨SCRAPERAPI_STRUCTURED_BASE_URL ++ "amazon/search",
          ScraperAPIStructuredWrapper.amazon_outbound k m⟩]
    ∧ (ScraperAPIStructuredWrapper.amazon_search_async k m r).1
      = [⟨SCRAPERAPI_STRUCTURED_BASE_URL ++ "amazon/search",
          ScraperAPIStructuredWrapper.amazon_async_outbound k m⟩] := by
  refine ⟨?_, ?_, ?_, ?_, ?_, ?_, rfl, rfl, rfl, rfl, rfl, rfl⟩
  · simp [ScraperAPIWrapper.scrape_params, lookup_append, List.lookup]
  · simp [ScraperAPIWrapper.scrape_async_params, lookup_append, List.lookup]
  · rw [ScraperAPIStructuredWrapper.google_outbound, google_merge]
    exact lookup_fnn_some _ _ _
  · rw [ScraperAPIStructuredWrapper.google_async_outbound, google_async_merge]
    exact lookup_fnn_some _ _ _
  · rw [ScraperAPIStructuredWrapper.amazon_outbound, amazon_merge]
    exact lookup_fnn_some _ _ _
  · rw [ScraperAPIStructuredWrapper.amazon_async_outbound, amazon_async_merge]
    exact lookup_fnn_some _ _ _

/-- C7: wrapper construction resolves the credential from the constructor
argument when one is given (non-empty), otherwise from the
`SCRAPERAPI_API_KEY` environment variable; when both are absent the
validator raises a `ValueError` whose message names `SCRAPERAPI_API_KEY`,
and no wrapper instance is produced. -/
theorem C7_credential_resolution (dictVal envVal : Option String) :
    (∀ v, dictVal = some v → v ≠ "" →
      ScraperAPIWrapper.validate_environment dictVal envVal = .ok v
      ∧ ScraperAPIStructuredWrapper.validate_environment dictVal envVal = .ok v)
    ∧ (∀ e, dictVal = none → envVal = some e → e ≠ "" →
      ScraperAPIWrapper.validate_environment dictVal envVal = .ok e
      ∧ ScraperAPIStructuredWrapper.validate_environment dictVal envVal = .ok e)
    ∧ (dictVal = none → envVal = none →
      ScraperAPIWrapper.validate_environment dictVal envVal = .error missing_api_key_error
      ∧ ScraperAPIStructuredWrapper.validate_environment dictVal envVal
        = .error missing_api_key_error
      ∧ missing_api_key_error
        = "Did not find scraperapi_api_key, please add an environment variable `"
          ++ "SCRAPERAPI_API_KEY"
          ++ "` which contains it, or pass `scraperapi_api_key` as a named parameter.") := by
  refine ⟨?_, ?_, ?_⟩
  · intro v hd hv
    subst hd
    constructor <;>
      simp [ScraperAPIWrapper.validate_environment,
        ScraperAPIStructuredWrapper.validate_environment, get_from_dict_or_env, hv]
  · intro e hd he hne
    subst hd; subst he
    constructor <;>
      simp [ScraperAPIWrapper.validate_environment,
        ScraperAPIStructuredWrapper.validate_environment, get_from_dict_or_env,
        get_from_env, hne]
  · intro hd he
    subst hd; subst he
    refine ⟨rfl, rfl, by rfl⟩

/-- C7 witness: a direct key wins, the environment fallback works, and with
neither the validator fails with the message naming `SCRAPERAPI_API_KEY`. -/
theorem C7_credential_resolution_witness :
    ScraperAPIWrapper.validate_environment (some "direct-key") (some "env-key") = .ok "direct-key"
    ∧ ScraperAPIWrapper.validate_environment none (some "env-key") = .ok "env-key"
    ∧ ScraperAPIWrapper.validate_environment none none = .error missing_api_key_error := by
  refine ⟨?_, ?_, ?_⟩
  · exact ((C7_credential_resolution (some "direct-key") (some "env-key")).1
      "direct-key" rfl (by decide)).1
  · exact ((C7_credential_resolution none (some "env-key")).2.1
      "env-key" rfl rfl (by decide)).1
  · exact ((C7_credential_resolution none none).2.2 rfl rfl).1

/-- C8: every request method issues exactly one outbound HTTP GET per call
(the trace of issued requests has length one, unconditionally), and running
the same call twice issues two requests — the concatenation of two
independent one-request traces, with no caching suppressing the second. -/
theorem C8_single_get_no_retry_no_cache (k : String) (a : ScrapeArgs)
    (g : GoogleSearchArgs) (m : AmazonSearchArgs) (r r₁ r₂ : HttpResponse) :
    (ScraperAPIWrapper.scrape k a r).1.length = 1
    ∧ (ScraperAPIWrapper.scrape_async k a r).1.length = 1
    ∧ (ScraperAPIStructuredWrapper.google_search k g r).1.length = 1
    ∧ (ScraperAPIStructuredWrapper.google_search_async k g r).1.length = 1
    ∧ (ScraperAPIStructuredWrapper.amazon_search k m r).1.length = 1
    ∧ (ScraperAPIStructuredWrapper.amazon_search_async k m r).1.length = 1
    ∧ (ScraperAPIWrapper.scrape_twice k a r₁ r₂).1
      = (ScraperAPIWrapper.scrape k a r₁).1 ++ (ScraperAPIWrapper.scrape k a r₂).1
    ∧ (ScraperAPIWrapper.scrape_twice k a r₁ r₂).1.length = 2
    ∧ (ScraperAPIStructuredWrapper.amazon_search_twice k m r₁ r₂).1
      = (ScraperAPIStructuredWrapper.amazon_search k m r₁).1
        ++ (ScraperAPIStructuredWrapper.amazon_search k m r₂).1
    ∧ (ScraperAPIStructuredWrapper.amazon_search_twice k m r₁ r₂).1.length = 2 := by
  refine ⟨rfl, rfl, rfl, rfl, rfl, rfl, rfl, rfl, rfl, rfl⟩

/-- C1 counterexample: at HTTP status 201 (a 2xx status) with body
`"created-body"`, `scrape_async` returns `None` — not the response body —
refuting the claim that every request method returns the body on any 2xx
status. -/
theorem C1_counterexample :
    (ScraperAPIWrapper.scrape_async "k"
        ⟨"https://example.com", none, none, none, none, none, none⟩
        ⟨201, "created-body", "Created", "https://api.scraperapi.com/"⟩).2
      = Except.ok none
    ∧ (Except.ok (none : Option String) : Except String (Option String))
      ≠ Except.ok (some "created-body") := by
  refine ⟨rfl, by simp⟩

/-- C1 amended: the blocking methods (`scrape`, `google_search`,
`amazon_search`) return the body text unchanged on any 2xx status; the
non-blocking methods return the body exactly when the status is 200 and
return `None` (no body, no exception) on any other 2xx status. -/
theorem C1_amended_2xx_body (k : String) (a : ScrapeArgs)
    (g : GoogleSearchArgs) (m : AmazonSearchArgs) (r : HttpResponse) :
    (200 ≤ r.status → r.status ≤ 299 →
      (ScraperAPIWrapper.scrape k a r).2 = .ok r.body
      ∧ (ScraperAPIStructuredWrapper.google_search k g r).2 = .ok r.body
      ∧ (ScraperAPIStructuredWrapper.amazon_search k m r).2 = .ok r.body)
    ∧ (r.status = 200 →
      (ScraperAPIWrapper.scrape_async k a r).2 = .ok (some r.body)
      ∧ (ScraperAPIStructuredWrapper.google_search_async k g r).2 = .ok (some r.body)
      ∧ (ScraperAPIStructuredWrapper.amazon_search_async k m r).2 = .ok (some r.body))
    ∧ (200 ≤ r.status → r.status ≤ 299 → r.status ≠ 200 →
      (ScraperAPIWrapper.scrape_async k a r).2 = .ok none
      ∧ (ScraperAPIStructuredWrapper.google_search_async k g r).2 = .ok none
      ∧ (ScraperAPIStructuredWrapper.amazon_search_async k m r).2 = .ok none) := by
  refine ⟨?_, ?_, ?_⟩
  · intro h1 h2
    have hc : ¬(400 ≤ r.status ∧ r.status ≤ 499) := by omega
    have hs : ¬(500 ≤ r.status ∧ r.status ≤ 599) := by omega
    refine ⟨?_, ?_, ?_⟩ <;>
      simp [ScraperAPIWrapper.scrape, ScraperAPIStructuredWrapper.google_search,
        ScraperAPIStructuredWrapper.amazon_search, ScraperAPIStructuredWrapper.make_request,
        requests_raise_for_status, hc, hs]
  · intro h
    refine ⟨?_, ?_, ?_⟩ <;>
      simp [ScraperAPIWrapper.scrape_async, ScraperAPIStructuredWrapper.google_search_async,
        ScraperAPIStructuredWrapper.amazon_search_async,
        ScraperAPIStructuredWrapper.make_request_async, h]
  · intro h1 h2 h3
    have ha : ¬400 ≤ r.status := by omega
    refine ⟨?_, ?_, ?_⟩ <;>
      simp [ScraperAPIWrapper.scrape_async, ScraperAPIStructuredWrapper.google_search_async,
        ScraperAPIStructuredWrapper.amazon_search_async,
        ScraperAPIStructuredWrapper.make_request_async, aiohttp_raise_for_status, h3, ha]

/-- C1 amended witness: concrete 204 and 200 responses exercise the three
conjuncts. -/
theorem C1_amended_2xx_body_witness :
    (ScraperAPIWrapper.scrape "k" ⟨"https://x.org", none, none, none, none, none, none⟩
        ⟨204, "nc-body", "No Content", "u"⟩).2 = Except.ok "nc-body"
    ∧ (ScraperAPIWrapper.scrape_async "k" ⟨"https://x.org", none, none, none, none, none, none⟩
        ⟨200, "ok-body", "OK", "u"⟩).2 = Except.ok (some "ok-body")
    ∧ (ScraperAPIWrapper.scrape_async "k" ⟨"https://x.org", none, none, none, none, none, none⟩
        ⟨204, "nc-body", "No Content", "u"⟩).2 = Except.ok none := by
  refine ⟨?_, ?_, ?_⟩
  · exact ((C1_amended_2xx_body "k" ⟨"https://x.org", none, none, none, none, none, none⟩
      ⟨"q", none, none, none, none, none, none, none, none, none, none⟩
      ⟨"q", none, none, none, none⟩
      ⟨204, "nc-body", "No Content", "u"⟩).1 (by decide) (by decide)).1
  · exact ((C1_amended_2xx_body "k" ⟨"https://x.org", none, none, none, none, none, none⟩
      ⟨"q", none, none, none, none, none, none, none, none, none, none⟩
      ⟨"q", none, none, none, none⟩
      ⟨200, "ok-body", "OK", "u"⟩).2.1 rfl).1
  · exact ((C1_amended_2xx_body "k" ⟨"https://x.org", none, none, none, none, none, none⟩
      ⟨"q", none, none, none, none, none, none, none, none, none, none⟩
      ⟨"q", none, none, none, none⟩
      ⟨204, "nc-body", "No Content", "u"⟩).2.2 (by decide) (by decide) (by decide)).1

/-- C5 counterexample: at status 204 with body `"payload"` the blocking
`scrape` returns the body while `scrape_async` returns `None`, so the two
forms do not return the same result (and neither fails). -/
theorem C5_counterexample :
    (ScraperAPIWrapper.scrape "k"
        ⟨"https://example.com", none, none, none, none, none, none⟩
        ⟨204, "payload", "No Content", "https://api.scraperapi.com/"⟩).2
      = Except.ok "payload"
    ∧ (ScraperAPIWrapper.scrape_async "k"
        ⟨"https://example.com", none, none, none, none, none, none⟩
        ⟨204, "payload", "No Content", "https://api.scraperapi.com/"⟩).2
      = Except.ok none
    ∧ (Except.ok (none : Option String) : Except String (Option String))
      ≠ Except.ok (some "payload") := by
  refine ⟨rfl, rfl, by simp⟩

/-- C5 amended: `scrape` and `scrape_async` build identical outbound
parameter mappings and issue the same single request; both return the body
at status 200 and both raise on 4xx/5xx; but on statuses 201–399 the
blocking form returns the body while the non-blocking form returns `None`. -/
theorem C5_amended_sync_async_agreement (k : String) (a : ScrapeArgs) (r : HttpResponse) :
    ScraperAPIWrapper.scrape_params k a = ScraperAPIWrapper.scrape_async_params k a
    ∧ (ScraperAPIWrapper.scrape k a r).1 = (ScraperAPIWrapper.scrape_async k a r).1
    ∧ (r.status = 200 →
      (ScraperAPIWrapper.scrape k a r).2 = .ok r.body
      ∧ (ScraperAPIWrapper.scrape_async k a r).2 = .ok (some r.body))
    ∧ (400 ≤ r.status → r.status ≤ 599 →
      (∃ e, (ScraperAPIWrapper.scrape k a r).2 = .error e)
      ∧ ∃ e, (ScraperAPIWrapper.scrape_async k a r).2 = .error e)
    ∧ (201 ≤ r.status → r.status ≤ 399 →
      (ScraperAPIWrapper.scrape k a r).2 = .ok r.body
      ∧ (ScraperAPIWrapper.scrape_async k a r).2 = .ok none) := by
  refine ⟨rfl, rfl, ?_, ?_, ?_⟩
  · intro h
    have hc : ¬(400 ≤ r.status ∧ r.status ≤ 499) := by omega
    have hs : ¬(500 ≤ r.status ∧ r.status ≤ 599) := by omega
    constructor <;>
      simp [ScraperAPIWrapper.scrape, ScraperAPIWrapper.scrape_async,
        requests_raise_for_status, hc, hs, h]
  · intro h4 h5
    have hne : r.status ≠ 200 := by omega
    constructor
    · by_cases hc : r.status ≤ 499
      · have hmsg : (ScraperAPIWrapper.scrape k a r).2
            = .error (toString r.status ++ " Client Error: " ++ r.reason
              ++ " for url: " ++ r.url) := by
          simp [ScraperAPIWrapper.scrape, requests_raise_for_status, h4, hc]
        exact ⟨_, hmsg⟩
      · have hs1 : 500 ≤ r.status := by omega
        have hc2 : ¬(400 ≤ r.status ∧ r.status ≤ 499) := by omega
        have hmsg : (ScraperAPIWrapper.scrape k a r).2
            = .error (toString r.status ++ " Server Error: " ++ r.reason
              ++ " for url: " ++ r.url) := by
          simp [ScraperAPIWrapper.scrape, requests_raise_for_status, hc2, hs1, h5]
        exact ⟨_, hmsg⟩
    · have hmsg : (ScraperAPIWrapper.scrape_async k a r).2
          = .error (toString r.status ++ ", message=" ++ r.reason ++ ", url=" ++ r.url) := by
        simp [ScraperAPIWrapper.scrape_async, aiohttp_raise_for_status, hne, h4]
      exact ⟨_, hmsg⟩
  · intro h1 h2
    have hne : r.status ≠ 200 := by omega
    have hc : ¬(400 ≤ r.status ∧ r.status ≤ 499) := by omega
    have hs : ¬(500 ≤ r.status ∧ r.status ≤ 599) := by omega
    have ha : ¬400 ≤ r.status := by omega
    constructor <;>
      simp [ScraperAPIWrapper.scrape, ScraperAPIWrapper.scrape_async,
        requests_raise_for_status, aiohttp_raise_for_status, hne, hc, hs, ha]

/-- C5 amended witness: a concrete 200 response exercises the agreement
conjunct, and a concrete 404 exercises the shared failure class. -/
theorem C5_amended_sync_async_agreement_witness :
    (ScraperAPIWrapper.scrape "k" ⟨"https://x.org", none, none, none, none, none, none⟩
        ⟨200, "same-body", "OK", "u"⟩).2 = Except.ok "same-body"
    ∧ (ScraperAPIWrapper.scrape_async "k" ⟨"https://x.org", none, none, none, none, none, none⟩
        ⟨200, "same-body", "OK", "u"⟩).2 = Except.ok (some "same-body")
    ∧ ∃ e, (ScraperAPIWrapper.scrape "k" ⟨"https://x.org", none, none, none, none, none, none⟩
        ⟨404, "nf", "NOT FOUND", "u"⟩).2 = Except.error e := by
  refine ⟨?_, ?_, ?_⟩
  · exact ((C5_amended_sync_async_agreement "k"
      ⟨"https://x.org", none, none, none, none, none, none⟩
      ⟨200, "same-body", "OK", "u"⟩).2.2.1 rfl).1
  · exact ((C5_amended_sync_async_agreement "k"
      ⟨"https://x.org", none, none, none, none, none, none⟩
      ⟨200, "same-body", "OK", "u"⟩).2.2.1 rfl).2
  · exact ((C5_amended_sync_async_agreement "k"
      ⟨"https://x.org", none, none, none, none, none, none⟩
      ⟨404, "nf", "NOT FOUND", "u"⟩).2.2.2.1 (by decide) (by decide)).1

end LangchainScraperapi
